import Mathlib

/-!
Shallow embedding of the stellar sep45-reference contracts
(`src/contracts/account/src/lib.rs` and `src/contracts/web_auth/src/lib.rs`).

Byte arrays (`BytesN<32>`, `BytesN<64>`) are modelled as lists of naturals:
only equality on them matters to the contracts.  Host principals
(`soroban_sdk::Address`) are opaque; we model them as naturals.  The host
environment's effectful primitives are modelled as explicit parameters:

- `ver` stands for `env.crypto().ed25519_verify` viewed as a predicate
  (public key, payload, signature) -> accepted?; the real primitive traps
  the whole invocation on a mismatch, which we record as a distinct
  `cryptoFault` result constructor rather than a typed error;
- `auths` stands for the host's `require_auth` verdict on a principal:
  `true` means the authorization is granted, `false` means `require_auth`
  traps (an `authFault` result);
- `fromString` stands for `Address::from_string`, which traps on a
  malformed string (a `parseFault` result).

Instance storage is threaded explicitly through `__check_auth` so that the
absence of writes during authorization is a provable fact, not an artifact
of the model.
-/

namespace Sep45

abbrev Bytes32 := List Nat
abbrev Bytes64 := List Nat
abbrev Address := Nat

/-- The `Signature` struct of the account contract: a 32-byte public key
identifier paired with a 64-byte Ed25519 signature. -/
structure Signature where
  public_key : Bytes32
  signature : Bytes64
deriving DecidableEq

/-- The `AccountError` contracterror enum of the account contract. -/
inductive AccountError
  | UnknownSigner
  | TooManySignatures
deriving DecidableEq

/-- Outcome of one invocation of `__check_auth`: success, a typed
`AccountError` returned to the caller, or one of the two fatal traps the
body can raise (out-of-bounds `get_unchecked` on the bundle, or an
`ed25519_verify` mismatch). -/
inductive AccountResult
  | ok
  | err (e : AccountError)
  | indexFault
  | cryptoFault
deriving DecidableEq

/-- The account contract's instance storage: the entry at `DataKey::Admin`
(absent until the constructor runs) and the set of 32-byte keys `k` for
which `DataKey::Signer(k)` maps to `()`. -/
structure InstanceStorage where
  admin : Option Address
  signers : List Bytes32
deriving DecidableEq

/-- Storage read `env.storage().instance().get(&DataKey::Signer(pk))`:
returns the stored unit marker when present, and the storage unchanged. -/
def getSigner (st : InstanceStorage) (pk : Bytes32) : Option Unit × InstanceStorage :=
  (if st.signers.contains pk then some () else none, st)

/-- Storage read `env.storage().instance().get(&DataKey::Admin)`. -/
def getAdmin (st : InstanceStorage) : Option Address × InstanceStorage :=
  (st.admin, st)

/-- The account contract's `__constructor(env, admin, signer)`: stores the
admin principal under `DataKey::Admin` and seeds the single signer entry
`DataKey::Signer(signer) -> ()`. -/
def account_constructor (st : InstanceStorage) (admin : Address) (signer : Bytes32) :
    InstanceStorage :=
  ⟨some admin, signer :: st.signers⟩

/-- The account contract's `__check_auth(env, signature_payload, signatures,
auth_context)`, with the host crypto primitive `ver` and the instance
storage passed explicitly; returns the invocation outcome together with the
storage as it stands afterwards.  Mirrors the source line by line: the
arity check `signatures.len() > 1`, the unchecked read of element 0 (a trap
on an empty bundle), the registry lookup, and the trapping Ed25519
verification. -/
def __check_auth {C : Type} (ver : Bytes32 → Bytes32 → Bytes64 → Bool)
    (env : InstanceStorage) (signature_payload : Bytes32)
    (signatures : List Signature) (_auth_context : List C) :
    AccountResult × InstanceStorage :=
  if signatures.length > 1 then
    (.err .TooManySignatures, env)
  else
    match signatures.head? with
    | none => (.indexFault, env)
    | some signature =>
      let r := getSigner env signature.public_key
      if (r.1).isNone then
        (.err .UnknownSigner, r.2)
      else
        if ver signature.public_key signature_payload signature.signature then
          (.ok, r.2)
        else
          (.cryptoFault, r.2)

/-- Outcome of the account contract's `upgrade`: fatal trap on the
`unwrap` of a missing `DataKey::Admin` entry, fatal trap from
`require_auth` when the admin does not authorize, or the code replacement
with the given hash. -/
inductive UpgradeResult
  | missingAdminFault
  | authFault
  | upgraded (new_wasm_hash : Bytes32)
deriving DecidableEq

/-- The account contract's `upgrade(env, new_wasm_hash)`: reads
`DataKey::Admin` (trapping when absent), demands that principal's
authorization via `require_auth` (trapping when denied), then replaces the
contract code. -/
def upgrade (auths : Address → Bool) (env : InstanceStorage) (new_wasm_hash : Bytes32) :
    UpgradeResult :=
  match (getAdmin env).1 with
  | none => .missingAdminFault
  | some admin =>
    if auths admin then .upgraded new_wasm_hash else .authFault

/-- The `WebAuthError` contracterror enum of the web_auth contract. -/
inductive WebAuthError
  | MissingArgument
deriving DecidableEq

/-- Outcome of one invocation of `web_auth_verify`: success, the typed
`MissingArgument` error, or one of the two fatal traps the body can raise
(`Address::from_string` on a malformed value, `require_auth` denial). -/
inductive WebAuthResult
  | ok
  | err (e : WebAuthError)
  | parseFault
  | authFault
deriving DecidableEq

/-- Lookup in the `Map<Symbol, String>` argument of `web_auth_verify`,
modelled as an association list keyed by the symbol's string. -/
def mapGet (args : List (String × String)) (k : String) : Option String :=
  List.lookup k args

/-- The web_auth contract's `web_auth_verify(env, args)`, with the host
primitives `fromString` (`Address::from_string`, trapping on malformed
input) and `auths` (the `require_auth` verdict) passed explicitly.
Mirrors the source: look up `account` (absent: `MissingArgument`), parse
and demand authorization; then `web_auth_domain_account` the same way;
then the optional `client_domain_account`, skipped silently when absent. -/
def web_auth_verify (fromString : String → Option Address) (auths : Address → Bool)
    (args : List (String × String)) : WebAuthResult :=
  match mapGet args "account" with
  | none => .err .MissingArgument
  | some address =>
    match fromString address with
    | none => .parseFault
    | some addr =>
      if auths addr then
        match mapGet args "web_auth_domain_account" with
        | none => .err .MissingArgument
        | some web_auth_domain_account =>
          match fromString web_auth_domain_account with
          | none => .parseFault
          | some addr2 =>
            if auths addr2 then
              match mapGet args "client_domain_account" with
              | none => .ok
              | some client_domain_account =>
                match fromString client_domain_account with
                | none => .parseFault
                | some addr3 =>
                  if auths addr3 then .ok else .authFault
            else .authFault
      else .authFault

/-- The spec's condition that a present argument value names a principal
that grants authorization: the lookup produced a value, the value parses
to an address, and `require_auth` on that address succeeds. -/
def requiredAuthorized (fromString : String → Option Address) (auths : Address → Bool)
    (v? : Option String) : Prop :=
  ∃ v a, v? = some v ∧ fromString v = some a ∧ auths a = true

/-- A signature-verification verdict accepting everything, used to
instantiate the abstract host crypto primitive at concrete inputs. -/
def verAccept : Bytes32 → Bytes32 → Bytes64 → Bool := fun _ _ _ => true

/-- A concrete storage instance: admin principal `7`, single registered
signer key `[0]`. -/
def stW : InstanceStorage := ⟨some 7, [[0]]⟩

/-- An address parser accepting every string (as principal `1`), used to
instantiate `Address::from_string` at concrete inputs. -/
def parseAll : String → Option Address := fun _ => some 1

/-- An authorization verdict granting every principal's `require_auth`. -/
def authAll : Address → Bool := fun _ => true

/-- Claim C1: with the registered key `k0`, a single-element bundle is
accepted by `__check_auth` exactly when the signature is a valid Ed25519
signature of the payload under `k0`; an invalid signature aborts with the
fatal cryptographic fault, not a typed `AccountError`. -/
theorem check_auth_registered_iff_valid {C : Type}
    (ver : Bytes32 → Bytes32 → Bytes64 → Bool) (st : InstanceStorage)
    (d : Bytes32) (k0 : Bytes32) (s : Bytes64) (ctx : List C)
    (h : st.signers.contains k0 = true) :
    ((__check_auth ver st d [⟨k0, s⟩] ctx).1 = .ok ↔ ver k0 d s = true)
    ∧ (ver k0 d s = false →
        (__check_auth ver st d [⟨k0, s⟩] ctx).1 = .cryptoFault
        ∧ ∀ e, (__check_auth ver st d [⟨k0, s⟩] ctx).1 ≠ .err e) := by
  have hm : k0 ∈ st.signers := by simpa using h
  cases hv : ver k0 d s <;> simp [__check_auth, getSigner, hm, hv]

/-- Witness for C1 at the registered key `[0]` of `stW` with the
all-accepting verifier. -/
theorem check_auth_registered_iff_valid_witness :
    ((__check_auth verAccept stW [0] [⟨[0], [1]⟩] ([] : List Nat)).1 = .ok
       ↔ verAccept [0] [0] [1] = true)
    ∧ (verAccept [0] [0] [1] = false →
        (__check_auth verAccept stW [0] [⟨[0], [1]⟩] ([] : List Nat)).1 = .cryptoFault
        ∧ ∀ e, (__check_auth verAccept stW [0] [⟨[0], [1]⟩] ([] : List Nat)).1 ≠ .err e) :=
  check_auth_registered_iff_valid verAccept stW [0] [0] [1] [] (by decide)

/-- Claim C2: a single-element bundle whose key is not in the signer
registry makes `__check_auth` return the typed error `UnknownSigner`,
whatever the payload, the signature value and the verifier's verdicts. -/
theorem check_auth_unknown_signer {C : Type}
    (ver : Bytes32 → Bytes32 → Bytes64 → Bool) (st : InstanceStorage)
    (d : Bytes32) (k : Bytes32) (s : Bytes64) (ctx : List C)
    (h : st.signers.contains k = false) :
    (__check_auth ver st d [⟨k, s⟩] ctx).1 = .err .UnknownSigner := by
  have hm : k ∉ st.signers := by simpa using h
  simp [__check_auth, getSigner, hm]

/-- Witness for C2 at the unregistered key `[1]`. -/
theorem check_auth_unknown_signer_witness :
    (__check_auth verAccept stW [0] [⟨[1], [2]⟩] ([] : List Nat)).1
      = .err .UnknownSigner :=
  check_auth_unknown_signer verAccept stW [0] [1] [2] [] (by decide)

/-- Claim C3: every bundle of length at least two makes `__check_auth`
return `TooManySignatures`, for every storage instance and every verifier
verdict — so before any registry lookup or cryptographic check can have an
observable effect. -/
theorem check_auth_too_many_signatures {C : Type}
    (ver : Bytes32 → Bytes32 → Bytes64 → Bool) (st : InstanceStorage)
    (d : Bytes32) (sigs : List Signature) (ctx : List C)
    (h : 2 ≤ sigs.length) :
    (__check_auth ver st d sigs ctx).1 = .err .TooManySignatures := by
  have hl : sigs.length > 1 := h
  simp [__check_auth, hl]

/-- Witness for C3: a length-2 bundle whose first element references the
unregistered key `[5]` still yields `TooManySignatures`, not
`UnknownSigner`. -/
theorem check_auth_too_many_signatures_witness :
    (__check_auth verAccept stW [0] [⟨[5], [2]⟩, ⟨[0], [3]⟩] ([] : List Nat)).1
        = .err .TooManySignatures
    ∧ (__check_auth verAccept stW [0] [⟨[5], [2]⟩, ⟨[0], [3]⟩] ([] : List Nat)).1
        ≠ .err .UnknownSigner :=
  ⟨check_auth_too_many_signatures verAccept stW [0] [⟨[5], [2]⟩, ⟨[0], [3]⟩] []
      (by decide),
   by decide⟩

/-- Claim C4: the zero-length bundle passes the arity check (which only
rejects length greater than one) and then aborts with the fatal
out-of-bounds fault of the unchecked element read; no typed `AccountError`
is returned. -/
theorem check_auth_empty_bundle_fault {C : Type}
    (ver : Bytes32 → Bytes32 → Bytes64 → Bool) (st : InstanceStorage)
    (d : Bytes32) (ctx : List C) :
    (__check_auth ver st d [] ctx).1 = .indexFault
    ∧ ∀ e, (__check_auth ver st d [] ctx).1 ≠ .err e := by
  refine ⟨rfl, ?_⟩
  intro e
  simp [__check_auth]

/-- Claim C5: `upgrade` aborts with the fatal missing-configuration fault
whenever `DataKey::Admin` was never stored, and when an admin is stored the
code replacement happens exactly when that admin principal's
`require_auth` grants authorization (a denial is the fatal `require_auth`
trap, never a typed error). -/
theorem upgrade_admin_gate (auths : Address → Bool) (env : InstanceStorage)
    (w : Bytes32) :
    (env.admin = none → upgrade auths env w = .missingAdminFault)
    ∧ (∀ a, env.admin = some a →
        ((upgrade auths env w = .upgraded w ↔ auths a = true)
         ∧ (auths a = false → upgrade auths env w = .authFault))) := by
  constructor
  · intro ha
    simp [upgrade, getAdmin, ha]
  · intro a ha
    cases hv : auths a <;> simp [upgrade, getAdmin, ha, hv]

/-- Claim C8: `__check_auth` never inspects its action-context argument:
for a fixed verifier, storage, payload and bundle, any two context lists —
even of different element types — produce identical results. -/
theorem check_auth_context_independent {C D : Type}
    (ver : Bytes32 → Bytes32 → Bytes64 → Bool) (st : InstanceStorage)
    (d : Bytes32) (sigs : List Signature) (c1 : List C) (c2 : List D) :
    __check_auth ver st d sigs c1 = __check_auth ver st d sigs c2 :=
  rfl

/-- Helper: the storage component returned by `__check_auth` is the
storage it was given — the body performs reads only. -/
theorem check_auth_storage_eq {C : Type}
    (ver : Bytes32 → Bytes32 → Bytes64 → Bool) (st : InstanceStorage)
    (d : Bytes32) (sigs : List Signature) (ctx : List C) :
    (__check_auth ver st d sigs ctx).2 = st := by
  unfold __check_auth
  split
  · rfl
  · split
    · rfl
    · dsimp only [getSigner]
      split_ifs <;> rfl

/-- Claim C9: `__check_auth` is mutation-free and therefore idempotent:
one call leaves the persisted storage exactly as it found it, and a second
call run on the storage the first call left behind returns the same result
as the first. -/
theorem check_auth_pure {C : Type}
    (ver : Bytes32 → Bytes32 → Bytes64 → Bool) (st : InstanceStorage)
    (d : Bytes32) (sigs : List Signature) (ctx : List C) :
    (__check_auth ver st d sigs ctx).2 = st
    ∧ (__check_auth ver ((__check_auth ver st d sigs ctx).2) d sigs ctx).1
        = (__check_auth ver st d sigs ctx).1 := by
  refine ⟨check_auth_storage_eq ver st d sigs ctx, ?_⟩
  rw [check_auth_storage_eq ver st d sigs ctx]

/-- Claim C6: `web_auth_verify` evaluates `account` strictly before
`web_auth_domain_account`: a map with `account` absent yields
`MissingArgument` whatever the rest of the map, the parser and the
authorization verdicts; and once the `account` step passes, an absent
`web_auth_domain_account` yields `MissingArgument` whatever the
`client_domain_account` entry. -/
theorem web_auth_verify_fail_fast (fs : String → Option Address)
    (auths : Address → Bool) (args : List (String × String)) :
    (mapGet args "account" = none →
       web_auth_verify fs auths args = .err .MissingArgument)
    ∧ (∀ v a, mapGet args "account" = some v → fs v = some a → auths a = true →
        mapGet args "web_auth_domain_account" = none →
        web_auth_verify fs auths args = .err .MissingArgument) := by
  constructor
  · intro h1
    simp [web_auth_verify, h1]
  · intro v a h1 h2 h3 h4
    simp [web_auth_verify, h1, h2, h3, h4]

/-- Claim C7: `web_auth_verify` succeeds exactly when both required keys
are present and authorized and the optional `client_domain_account`, when
present, is authorized — an absent optional key is silently skipped; the
empty map yields `MissingArgument`. -/
theorem web_auth_verify_ok_iff (fs : String → Option Address)
    (auths : Address → Bool) (args : List (String × String)) :
    (web_auth_verify fs auths args = .ok ↔
      (requiredAuthorized fs auths (mapGet args "account")
       ∧ requiredAuthorized fs auths (mapGet args "web_auth_domain_account")
       ∧ (mapGet args "client_domain_account" = none
          ∨ requiredAuthorized fs auths (mapGet args "client_domain_account"))))
    ∧ web_auth_verify fs auths [] = .err .MissingArgument := by
  refine ⟨?_, rfl⟩
  cases h1 : mapGet args "account" with
  | none => simp [web_auth_verify, requiredAuthorized, h1]
  | some v =>
    cases h2 : fs v with
    | none => simp [web_auth_verify, requiredAuthorized, h1, h2]
    | some a =>
      cases h3 : auths a with
      | false => simp [web_auth_verify, requiredAuthorized, h1, h2, h3]
      | true =>
        cases h4 : mapGet args "web_auth_domain_account" with
        | none => simp [web_auth_verify, requiredAuthorized, h1, h2, h3, h4]
        | some w =>
          cases h5 : fs w with
          | none => simp [web_auth_verify, requiredAuthorized, h1, h2, h3, h4, h5]
          | some b =>
            cases h6 : auths b with
            | false =>
              simp [web_auth_verify, requiredAuthorized, h1, h2, h3, h4, h5, h6]
            | true =>
              cases h7 : mapGet args "client_domain_account" with
              | none =>
                simp [web_auth_verify, requiredAuthorized, h1, h2, h3, h4, h5, h6, h7]
              | some u =>
                cases h8 : fs u with
                | none =>
                  simp [web_auth_verify, requiredAuthorized,
                    h1, h2, h3, h4, h5, h6, h7, h8]
                | some c =>
                  cases h9 : auths c with
                  | false =>
                    simp [web_auth_verify, requiredAuthorized,
                      h1, h2, h3, h4, h5, h6, h7, h8, h9]
                  | true =>
                    simp [web_auth_verify, requiredAuthorized,
                      h1, h2, h3, h4, h5, h6, h7, h8, h9]

/-- Counterexample to claim C10 as stated: the map holding only a
malformed `client_domain_account` value has a recognized key present whose
value does not parse, yet `web_auth_verify` returns the typed
`MissingArgument` error (for the absent required `account`) and never
reaches the parse, so no parse fault occurs. -/
theorem web_auth_malformed_value_cex :
    mapGet [("client_domain_account", "x")] "client_domain_account" = some "x"
    ∧ (fun _ => (none : Option Address)) "x" = none
    ∧ web_auth_verify (fun _ => none) authAll [("client_domain_account", "x")]
        = .err .MissingArgument
    ∧ web_auth_verify (fun _ => none) authAll [("client_domain_account", "x")]
        ≠ .parseFault := by
  exact ⟨by decide, rfl, by decide, by decide⟩

/-- Claim C10 amended: `MissingArgument` arises only from an absent
required key, never from a present-but-malformed value; and a
present-but-malformed value aborts the call with the fatal parse fault as
soon as evaluation reaches it — for `account` immediately, and for the
later keys once every earlier step passed. -/
theorem web_auth_malformed_parse_fault (fs : String → Option Address)
    (auths : Address → Bool) (args : List (String × String)) :
    (web_auth_verify fs auths args = .err .MissingArgument →
       mapGet args "account" = none ∨ mapGet args "web_auth_domain_account" = none)
    ∧ (∀ v, mapGet args "account" = some v → fs v = none →
        web_auth_verify fs auths args = .parseFault)
    ∧ (∀ v a w, mapGet args "account" = some v → fs v = some a → auths a = true →
        mapGet args "web_auth_domain_account" = some w → fs w = none →
        web_auth_verify fs auths args = .parseFault)
    ∧ (∀ v a w b u, mapGet args "account" = some v → fs v = some a →
        auths a = true →
        mapGet args "web_auth_domain_account" = some w → fs w = some b →
        auths b = true →
        mapGet args "client_domain_account" = some u → fs u = none →
        web_auth_verify fs auths args = .parseFault) := by
  refine ⟨?_, ?_, ?_, ?_⟩
  · intro h
    by_cases h1 : mapGet args "account" = none
    · exact Or.inl h1
    · obtain ⟨v, hv⟩ := Option.ne_none_iff_exists'.mp h1
      cases h2 : fs v with
      | none => simp [web_auth_verify, hv, h2] at h
      | some a =>
        cases h3 : auths a with
        | false => simp [web_auth_verify, hv, h2, h3] at h
        | true =>
          by_cases h4 : mapGet args "web_auth_domain_account" = none
          · exact Or.inr h4
          · obtain ⟨w, hw⟩ := Option.ne_none_iff_exists'.mp h4
            cases h5 : fs w with
            | none => simp [web_auth_verify, hv, h2, h3, hw, h5] at h
            | some b =>
              cases h6 : auths b with
              | false => simp [web_auth_verify, hv, h2, h3, hw, h5, h6] at h
              | true =>
                cases h7 : mapGet args "client_domain_account" with
                | none => simp [web_auth_verify, hv, h2, h3, hw, h5, h6, h7] at h
                | some u =>
                  cases h8 : fs u with
                  | none =>
                    simp [web_auth_verify, hv, h2, h3, hw, h5, h6, h7, h8] at h
                  | some c =>
                    cases h9 : auths c with
                    | false =>
                      simp [web_auth_verify, hv, h2, h3, hw, h5, h6, h7, h8, h9] at h
                    | true =>
                      simp [web_auth_verify, hv, h2, h3, hw, h5, h6, h7, h8, h9] at h
  · intro v h1 h2
    simp [web_auth_verify, h1, h2]
  · intro v a w h1 h2 h3 h4 h5
    simp [web_auth_verify, h1, h2, h3, h4, h5]
  · intro v a w b u h1 h2 h3 h4 h5 h6 h7 h8
    simp [web_auth_verify, h1, h2, h3, h4, h5, h6, h7, h8]

end Sep45
